import Mathlib

/-
  Verification of the Order Transaction Coordinator of the storefront CRM
  (crm/schema.py): CreateOrder, UpdateOrder, DeleteOrder and the bulk
  product mutations, embedded shallowly over an explicit store state.

  Modelling notes, mirroring the Django/graphene source:
  * `Product.objects.filter(id__in=ids)` is a fresh query returning each
    matching row once, in table order; a queryset evaluated once (by
    `len(...)`) caches its row objects, so later reads of those objects
    see the values from the time of that query, not current ones, and a
    later `obj.save()` writes the cached object's fields back wholesale.
    We model every `obj.stock = v; obj.save()` as an absolute write of
    the captured object's value.
  * `with transaction.atomic():` commits on every normal exit, including
    an early `return` of a failure result; only exceptions roll back.
    Hence a failure `return` inside the block commits whatever was
    already written: the embedding returns the state as written so far.
  * Many-to-many writes (`order.products.set/add/remove`) hit the store
    immediately; `order.save()` persists the scalar fields (customer
    reassignment, total) and only runs on the success path.
  * Prices are abstracted to integers (the code pre-rounds floats to two
    decimals at write time; no claim here depends on rounding).
-/

namespace CRM

/-- A catalog product row: identity, display name, unit price and current stock. -/
structure Product where
  id : Nat
  name : String
  price : Int
  stock : Int
deriving DecidableEq

/-- A customer row (only the fields the order coordinator touches). -/
structure Customer where
  id : Nat
  name : String
  email : String
deriving DecidableEq

/-- An order row: owning customer, the many-to-many product id set and the cached total. -/
structure Order where
  id : Nat
  customerId : Nat
  productIds : List Nat
  total : Int
deriving DecidableEq

/-- The committed store state, with auto-increment counters for fresh row ids. -/
structure CRMState where
  customers : List Customer
  products : List Product
  orders : List Order
  nextOrderId : Nat
  nextProductId : Nat
deriving DecidableEq

/-- Lookup `Product.objects.get(pk=pid)` as an option. -/
def findProduct (s : CRMState) (pid : Nat) : Option Product :=
  s.products.find? (fun p => decide (p.id = pid))

/-- Lookup `Customer.objects.get(pk=cid)` as an option. -/
def findCustomer (s : CRMState) (cid : Nat) : Option Customer :=
  s.customers.find? (fun c => decide (c.id = cid))

/-- Lookup `Order.objects.get(pk=oid)` as an option. -/
def findOrder (s : CRMState) (oid : Nat) : Option Order :=
  s.orders.find? (fun o => decide (o.id = oid))

/-- The query `Product.objects.filter(id__in=pids)`: each matching row once, in table order. -/
def resolveProducts (s : CRMState) (pids : List Nat) : List Product :=
  s.products.filter (fun p => decide (p.id ∈ pids))

/-- The set difference `set(pids) - set(found ids)`: distinct requested ids with no catalog row. -/
def missingIds (s : CRMState) (pids : List Nat) : List Nat :=
  pids.dedup.filter (fun i => decide (findProduct s i = none))

/-- Python `str(list_of_ints)` rendering, e.g. `[1, 2]`. -/
def pyIntList (l : List Nat) : String :=
  "[" ++ String.intercalate ", " (l.map toString) ++ "]"

/-- The query `order.products.all()`: the catalog rows of the order's current product set. -/
def orderProducts (s : CRMState) (oid : Nat) : List Product :=
  match findOrder s oid with
  | some o => resolveProducts s o.productIds
  | none => []

/-- Persist `product.stock = v; product.save()`: absolute write of the stock field. -/
def setStock (s : CRMState) (pid : Nat) (v : Int) : CRMState :=
  { s with products := s.products.map (fun p => if p.id = pid then { p with stock := v } else p) }

/-- Update the order row `oid` in place with `f` (the function must preserve the id). -/
def updOrder (s : CRMState) (oid : Nat) (f : Order → Order) : CRMState :=
  { s with orders := s.orders.map (fun o => if o.id = oid then f o else o) }

/-- The many-to-many write `order.products.set(pids)` (immediate). -/
def setOrderProducts (s : CRMState) (oid : Nat) (pids : List Nat) : CRMState :=
  updOrder s oid (fun o => { o with productIds := pids })

/-- The many-to-many write `order.products.add(*ps)`: attaches only the ids not already members. -/
def addOrderProducts (s : CRMState) (oid : Nat) (pids : List Nat) : CRMState :=
  updOrder s oid (fun o =>
    { o with productIds := o.productIds ++ pids.filter (fun i => decide (i ∉ o.productIds)) })

/-- The many-to-many write `order.products.remove(*ps)`: detaches the ids that are members. -/
def removeOrderProducts (s : CRMState) (oid : Nat) (pids : List Nat) : CRMState :=
  updOrder s oid (fun o => { o with productIds := o.productIds.filter (fun i => decide (i ∉ pids)) })

/-- The current product id set of order `oid` (empty when the order is absent). -/
def orderMembership (s : CRMState) (oid : Nat) : List Nat :=
  match findOrder s oid with
  | some o => o.productIds
  | none => []

/-- A stock-write loop `for product in captured: product.stock = f(product); product.save()`:
each iteration writes the captured object's value back. -/
def writeStocks (s : CRMState) (ps : List Product) (f : Product → Int) : CRMState :=
  ps.foldl (fun st p => setStock st p.id (f p)) s

/-- The uniform mutation result of CreateOrder/UpdateOrder. -/
structure OrderResult where
  order : Option Order
  success : Bool
  message : String
deriving DecidableEq

/-- A failure result `(order=None, success=False, message=m)`. -/
def failRes (m : String) : OrderResult :=
  { order := none, success := false, message := m }

/-- The names of the captured products with `stock <= 0`, joined as in the source. -/
def outOfStockNames (ps : List Product) : List String :=
  (ps.filter (fun p => decide (p.stock ≤ 0))).map (fun p => p.name)

/-- CreateOrder.mutate: validate, resolve customer and products, check stock,
then create the order, set the total and decrement each product's stock by 1. -/
def createOrder (s : CRMState) (customerId : Nat) (productIds : List Nat) :
    OrderResult × CRMState :=
  if productIds = [] then (failRes "At least one product is required", s)
  else
    match findCustomer s customerId with
    | none => (failRes "Customer not found", s)
    | some customer =>
      let products := resolveProducts s productIds
      if products.length ≠ productIds.length then
        (failRes ("Products not found: " ++ pyIntList (missingIds s productIds)), s)
      else
        let oos := outOfStockNames products
        if oos ≠ [] then
          (failRes ("Products out of stock: " ++ String.intercalate ", " oos), s)
        else
          let oid := s.nextOrderId
          let total := (products.map (fun p => p.price)).sum
          let newOrder : Order :=
            { id := oid, customerId := customer.id,
              productIds := products.map (fun p => p.id), total := total }
          let s1 : CRMState :=
            { s with orders := s.orders ++ [newOrder], nextOrderId := oid + 1 }
          let s2 := writeStocks s1 products (fun p => p.stock - 1)
          ({ order := findOrder s2 oid, success := true,
             message := "Order created successfully" }, s2)

/-- UpdateOrder step 2, `if customer_id: ...`: resolve the new customer; yields the pending
in-memory reassignment (persisted only by the final `order.save()`). A zero id is falsy in
Python and skips the step. -/
def customerStep (s : CRMState) (customerId : Option Nat) : Except String (Option Nat) :=
  match customerId with
  | none => Except.ok none
  | some cid =>
    if cid = 0 then Except.ok none
    else
      match findCustomer s cid with
      | some c => Except.ok (some c.id)
      | none => Except.error "Customer not found"

/-- UpdateOrder step 3, full replace (`if product_ids is not None:`). The `products`
queryset is captured before the stock release, so the stock check and the final
decrement both read the captured (pre-release) values. An error carries the state
as committed at the point of the failure `return`. -/
def replaceStep (s : CRMState) (oid : Nat) (productIds : Option (List Nat)) :
    Except (String × CRMState) CRMState :=
  match productIds with
  | none => Except.ok s
  | some pids =>
    if pids = [] then Except.error ("At least one product is required", s)
    else
      let products := resolveProducts s pids
      if products.length ≠ pids.length then
        Except.error ("Products not found: " ++ pyIntList (missingIds s pids), s)
      else
        let s1 := writeStocks s (orderProducts s oid) (fun p => p.stock + 1)
        let oos := outOfStockNames products
        if oos ≠ [] then
          let s2 := writeStocks s1 (orderProducts s1 oid) (fun p => p.stock - 1)
          Except.error ("Products out of stock: " ++ String.intercalate ", " oos, s2)
        else
          let s2 := setOrderProducts s1 oid (products.map (fun p => p.id))
          Except.ok (writeStocks s2 products (fun p => p.stock - 1))

/-- UpdateOrder step 4, incremental add (`if add_product_ids:`, so an empty list skips):
resolve, check stock, attach and decrement each captured product's stock. -/
def addStep (s : CRMState) (oid : Nat) (addProductIds : Option (List Nat)) :
    Except (String × CRMState) CRMState :=
  match addProductIds with
  | none => Except.ok s
  | some pids =>
    if pids = [] then Except.ok s
    else
      let addProducts := resolveProducts s pids
      if addProducts.length ≠ pids.length then
        Except.error ("Products to add not found: " ++ pyIntList (missingIds s pids), s)
      else
        let oos := outOfStockNames addProducts
        if oos ≠ [] then
          Except.error ("Products out of stock: " ++ String.intercalate ", " oos, s)
        else
          let s1 := addOrderProducts s oid (addProducts.map (fun p => p.id))
          Except.ok (writeStocks s1 addProducts (fun p => p.stock - 1))

/-- UpdateOrder step 5, incremental remove (`if remove_product_ids:`, so an empty list
skips): the resolved `remove_products` drops unknown ids silently; the emptiness guard
compares the current member count against the count of all resolved remove products
(members or not), and every resolved remove product gets its stock incremented. -/
def removeStep (s : CRMState) (oid : Nat) (removeProductIds : Option (List Nat)) :
    Except (String × CRMState) CRMState :=
  match removeProductIds with
  | none => Except.ok s
  | some pids =>
    if pids = [] then Except.ok s
    else
      let removeProducts := resolveProducts s pids
      if ((orderMembership s oid).length : Int) - removeProducts.length ≤ 0 then
        Except.error ("Cannot remove all products from order", s)
      else
        let s1 := removeOrderProducts s oid (removeProducts.map (fun p => p.id))
        Except.ok (writeStocks s1 removeProducts (fun p => p.stock + 1))

/-- The final `order.save()` of UpdateOrder: persists the pending customer reassignment
and the recomputed total. -/
def saveOrder (s : CRMState) (oid : Nat) (pendingCustomer : Option Nat) (total : Int) :
    CRMState :=
  updOrder s oid (fun o =>
    { o with customerId := pendingCustomer.getD o.customerId, total := total })

/-- UpdateOrder.mutate: resolve the order, then apply the customer / full-replace /
add / remove steps in order and recompute the total. Failure returns inside the
`transaction.atomic()` block exit it normally, so the state written so far commits. -/
def updateOrder (s : CRMState) (oid : Nat) (customerId : Option Nat)
    (productIds addProductIds removeProductIds : Option (List Nat)) :
    OrderResult × CRMState :=
  match findOrder s oid with
  | none => (failRes "Order not found", s)
  | some _ =>
    match customerStep s customerId with
    | Except.error m => (failRes m, s)
    | Except.ok pendingCustomer =>
      match replaceStep s oid productIds with
      | Except.error (m, s1) => (failRes m, s1)
      | Except.ok s1 =>
        match addStep s1 oid addProductIds with
        | Except.error (m, s2) => (failRes m, s2)
        | Except.ok s2 =>
          match removeStep s2 oid removeProductIds with
          | Except.error (m, s3) => (failRes m, s3)
          | Except.ok s3 =>
            let total := ((orderProducts s3 oid).map (fun p => p.price)).sum
            let s4 := saveOrder s3 oid pendingCustomer total
            ({ order := findOrder s4 oid, success := true,
               message := "Order updated successfully" }, s4)

/-- The result of DeleteOrder (no entity field in the source). -/
structure DeleteResult where
  success : Bool
  message : String
deriving DecidableEq

/-- DeleteOrder.mutate: restore stock for every attached product, then delete the order row. -/
def deleteOrder (s : CRMState) (oid : Nat) : DeleteResult × CRMState :=
  match findOrder s oid with
  | none => ({ success := false, message := "Order not found" }, s)
  | some _ =>
    let s1 := writeStocks s (orderProducts s oid) (fun p => p.stock + 1)
    let s2 := { s1 with orders := s1.orders.filter (fun o => decide (o.id ≠ oid)) }
    ({ success := true, message := "Order deleted successfully" }, s2)

/-- A decoded BulkCreateProducts payload item: either a string that fails
`json.loads`, or a record with the optional fields the code reads. -/
inductive ProductPayload where
  | badJson : ProductPayload
  | fields (name : Option String) (price : Option Int) (stock : Option Int) : ProductPayload
deriving DecidableEq

/-- The result shape of the bulk product mutations. -/
structure BulkResult where
  products : List Product
  success : Bool
  message : String
  errors : List String
deriving DecidableEq

/-- One iteration of the BulkCreateProducts loop body for the item at 0-based
index `i`: either a labeled error string, or the updated store and created row.
The name check mirrors `not data.get("name")` (absent or empty is falsy) and the
price check `data.get("price") is None`; stock defaults to 0. -/
def processItem (st : CRMState) (i : Nat) : ProductPayload → Except String (CRMState × Product)
  | ProductPayload.badJson =>
    Except.error ("Product " ++ toString (i + 1) ++ ": Invalid JSON format")
  | ProductPayload.fields name price stock =>
    if name = none ∨ name = some "" ∨ price = none then
      Except.error ("Product " ++ toString (i + 1) ++ ": Name and price are required")
    else
      let priceV := price.getD 0
      if ¬ priceV > 0 then
        Except.error ("Product " ++ toString (i + 1) ++ ": Price must be greater than 0")
      else
        let stockV := stock.getD 0
        if ¬ stockV ≥ 0 then
          Except.error ("Product " ++ toString (i + 1) ++ ": Stock must be non-negative")
        else
          let product : Product :=
            { id := st.nextProductId, name := (name.getD "").trim,
              price := priceV, stock := stockV }
          let st1 : CRMState :=
            { st with products := st.products ++ [product],
                      nextProductId := st.nextProductId + 1 }
          Except.ok (st1, product)

/-- The BulkCreateProducts loop from index `i` on: collects created rows and
labeled error messages without aborting on a per-item failure. -/
def bulkGo (st : CRMState) (i : Nat) :
    List ProductPayload → CRMState × List Product × List String
  | [] => (st, [], [])
  | payload :: rest =>
    match processItem st i payload with
    | Except.ok (st1, prod) =>
      (((bulkGo st1 (i + 1) rest).1 : CRMState),
        prod :: (bulkGo st1 (i + 1) rest).2.1, (bulkGo st1 (i + 1) rest).2.2)
    | Except.error e =>
      ((bulkGo st (i + 1) rest).1, (bulkGo st (i + 1) rest).2.1,
        e :: (bulkGo st (i + 1) rest).2.2)

/-- BulkCreateProducts.mutate: process every payload, then report the created
list, the counts in the message, the per-item errors, and success when at least
one item was created. -/
def bulkCreateProducts (s : CRMState) (payloads : List ProductPayload) :
    BulkResult × CRMState :=
  let created := (bulkGo s 0 payloads).2.1
  let errs := (bulkGo s 0 payloads).2.2
  ({ products := created,
     success := decide (0 < created.length),
     message := "Created " ++ toString created.length ++ " products. " ++
                toString errs.length ++ " errors.",
     errors := errs }, (bulkGo s 0 payloads).1)

/-- Well-formed store: distinct row ids, fresh auto-increment counter, and every
order's product set is a duplicate-free list of existing catalog ids. -/
def WF (s : CRMState) : Prop :=
  (s.products.map (fun p => p.id)).Nodup ∧
  (s.orders.map (fun o => o.id)).Nodup ∧
  (∀ o ∈ s.orders, o.id < s.nextOrderId) ∧
  (∀ o ∈ s.orders, o.productIds.Nodup) ∧
  (∀ o ∈ s.orders, ∀ pid ∈ o.productIds, (findProduct s pid).isSome)

instance (s : CRMState) : Decidable (WF s) := by
  unfold WF; infer_instance

/-- The number of currently-active orders referencing product `pid` (one link each). -/
def activeLinks (s : CRMState) (pid : Nat) : Nat :=
  (s.orders.filter (fun o => decide (pid ∈ o.productIds))).length

/-- Invariant I2 of the spec, relative to a baseline stock assignment: every product's
stock equals its baseline minus the number of active orders referencing it. -/
def I2 (baseline : Nat → Int) (s : CRMState) : Prop :=
  ∀ p ∈ s.products, p.stock = baseline p.id - activeLinks s p.id

instance (baseline : Nat → Int) (s : CRMState) : Decidable (I2 baseline s) := by
  unfold I2; infer_instance

/-- Whether a BulkCreateProducts item passes every per-item validation of the loop body
(pure: the checks read no store state). -/
def payloadValid : ProductPayload → Bool
  | ProductPayload.badJson => false
  | ProductPayload.fields name price stock =>
    (!(decide (name = none ∨ name = some "" ∨ price = none)))
      && decide (price.getD 0 > 0) && decide (stock.getD 0 ≥ 0)

/-- Store for the C1 scenario: one order holding products 1 and 2, product 3 free. -/
def StC1 : CRMState :=
  { customers := [{ id := 1, name := "c", email := "c@x.com" }],
    products := [{ id := 1, name := "A", price := 10, stock := 1 },
                 { id := 2, name := "B", price := 20, stock := 1 },
                 { id := 3, name := "C", price := 5, stock := 1 }],
    orders := [{ id := 1, customerId := 1, productIds := [1, 2], total := 30 }],
    nextOrderId := 2, nextProductId := 4 }

/-- Store for the C2 scenario: product 1 with baseline stock 5, one order holding it. -/
def StC2 : CRMState :=
  { customers := [{ id := 1, name := "c", email := "c@x.com" }],
    products := [{ id := 1, name := "A", price := 10, stock := 4 }],
    orders := [{ id := 1, customerId := 1, productIds := [1], total := 10 }],
    nextOrderId := 2, nextProductId := 2 }

/-- Store for the C3 scenario: order 1 holds the last unit of product P (stock 0). -/
def StC3 : CRMState :=
  { customers := [{ id := 1, name := "c", email := "c@x.com" }],
    products := [{ id := 1, name := "P", price := 10, stock := 0 }],
    orders := [{ id := 1, customerId := 1, productIds := [1], total := 10 }],
    nextOrderId := 2, nextProductId := 2 }

/-- Store for the C4 scenario: order 1 holds products 1 and 2; products 3 and 4 exist
in the catalog but are not attached to the order. -/
def StC4 : CRMState :=
  { customers := [{ id := 1, name := "c", email := "c@x.com" }],
    products := [{ id := 1, name := "A", price := 10, stock := 2 },
                 { id := 2, name := "B", price := 20, stock := 2 },
                 { id := 3, name := "C", price := 5, stock := 7 },
                 { id := 4, name := "D", price := 5, stock := 7 }],
    orders := [{ id := 1, customerId := 1, productIds := [1, 2], total := 30 }],
    nextOrderId := 2, nextProductId := 5 }

/-- Store for the C5 witness: two in-stock products, no orders yet. -/
def StC5 : CRMState :=
  { customers := [{ id := 1, name := "c", email := "c@x.com" }],
    products := [{ id := 1, name := "A", price := 10, stock := 3 },
                 { id := 2, name := "B", price := 20, stock := 4 }],
    orders := [], nextOrderId := 1, nextProductId := 3 }

/-- Store for the C6 counterexample: product 1 exists with stock 0. -/
def StC6 : CRMState :=
  { customers := [{ id := 1, name := "c", email := "c@x.com" }],
    products := [{ id := 1, name := "P", price := 10, stock := 0 }],
    orders := [], nextOrderId := 1, nextProductId := 2 }

/-- Store for the C6 two-sequential-calls scenario: product P with stock 1. -/
def StC6seq : CRMState :=
  { customers := [{ id := 1, name := "c", email := "c@x.com" }],
    products := [{ id := 1, name := "P", price := 10, stock := 1 }],
    orders := [], nextOrderId := 1, nextProductId := 2 }

/-- Store for the C6 witness: product 1 out of stock, product 2 in stock, id 9 absent. -/
def StC6w : CRMState :=
  { customers := [{ id := 1, name := "c", email := "c@x.com" }],
    products := [{ id := 1, name := "P", price := 10, stock := 0 },
                 { id := 2, name := "Q", price := 7, stock := 5 }],
    orders := [], nextOrderId := 1, nextProductId := 3 }

/-- The order row of the C7 witness store. -/
def OrdC7 : Order :=
  { id := 1, customerId := 1, productIds := [1, 2], total := 30 }

/-- Store for the C7 witness: order 1 holds products 1 and 2. -/
def StC7 : CRMState :=
  { customers := [{ id := 1, name := "c", email := "c@x.com" }],
    products := [{ id := 1, name := "A", price := 10, stock := 3 },
                 { id := 2, name := "B", price := 20, stock := 0 }],
    orders := [OrdC7], nextOrderId := 2, nextProductId := 3 }

/-- Store for the C8 scenario (its contents are irrelevant to the bulk counts). -/
def StC8 : CRMState :=
  { customers := [], products := [], orders := [], nextOrderId := 1, nextProductId := 1 }

/-- The three C8 payloads: item 2 carries a negative price. -/
def payloadsC8 : List ProductPayload :=
  [ProductPayload.fields (some "X") (some 10) (some 5),
   ProductPayload.fields (some "Y") (some (-3)) none,
   ProductPayload.fields (some "Z") (some 7) none]

/-- The order row of the C10 witness store. -/
def OrdC10 : Order :=
  { id := 1, customerId := 1, productIds := [1], total := 10 }

/-- The customer row shared by the witness stores. -/
def CustW : Customer :=
  { id := 1, name := "c", email := "c@x.com" }

/-- Store for the C10 witness: product 1 exists with ample stock. -/
def StC10 : CRMState :=
  { customers := [CustW],
    products := [{ id := 1, name := "P", price := 10, stock := 5 }],
    orders := [OrdC10], nextOrderId := 2, nextProductId := 2 }

theorem find?_map_comm {α : Type} (l : List α) (g : α → α) (p : α → Bool)
    (h : ∀ a, p (g a) = p a) : (l.map g).find? p = (l.find? p).map g := by
  induction l with
  | nil => rfl
  | cons a l ih =>
    simp only [List.map_cons, List.find?_cons, h a]
    cases hpa : p a <;> simp [ih]

theorem find?_append_left_none {α : Type} (l1 l2 : List α) (p : α → Bool)
    (h : ∀ x ∈ l1, p x = false) : (l1 ++ l2).find? p = l2.find? p := by
  induction l1 with
  | nil => rfl
  | cons a l ih =>
    have ha := h a (by simp)
    simp only [List.cons_append, List.find?_cons, ha]
    exact ih (fun x hx => h x (by simp [hx]))

theorem find?_isSome_of_mem {α : Type} {l : List α} {p : α → Bool} {a : α}
    (ha : a ∈ l) (hpa : p a = true) : (l.find? p).isSome = true :=
  List.find?_isSome.mpr ⟨a, ha, hpa⟩

theorem findProduct_setStock (s : CRMState) (x : Nat) (v : Int) (pid : Nat) :
    findProduct (setStock s x v) pid =
      (findProduct s pid).map (fun p => if p.id = x then { p with stock := v } else p) := by
  unfold findProduct setStock
  exact find?_map_comm s.products _ _ (fun a => by by_cases ha : a.id = x <;> simp [ha])

theorem writeStocks_orders (s : CRMState) (ps : List Product) (f : Product → Int) :
    (writeStocks s ps f).orders = s.orders := by
  induction ps generalizing s with
  | nil => rfl
  | cons p ps ih => exact ih (setStock s p.id (f p))

theorem writeStocks_customers (s : CRMState) (ps : List Product) (f : Product → Int) :
    (writeStocks s ps f).customers = s.customers := by
  induction ps generalizing s with
  | nil => rfl
  | cons p ps ih => exact ih (setStock s p.id (f p))

theorem findOrder_eq_of_orders {s t : CRMState} (h : s.orders = t.orders) (oid : Nat) :
    findOrder s oid = findOrder t oid := by
  unfold findOrder; rw [h]

theorem findOrder_writeStocks (s : CRMState) (ps : List Product) (f : Product → Int)
    (oid : Nat) : findOrder (writeStocks s ps f) oid = findOrder s oid :=
  findOrder_eq_of_orders (writeStocks_orders s ps f) oid

theorem findOrder_updOrder (s : CRMState) (oid' : Nat) (f : Order → Order)
    (hf : ∀ o, (f o).id = o.id) (oid : Nat) :
    findOrder (updOrder s oid' f) oid =
      (findOrder s oid).map (fun o => if o.id = oid' then f o else o) := by
  unfold findOrder updOrder
  exact find?_map_comm s.orders _ _ (fun a => by by_cases ha : a.id = oid' <;> simp [ha, hf])

theorem findProduct_updOrder (s : CRMState) (oid : Nat) (f : Order → Order) (pid : Nat) :
    findProduct (updOrder s oid f) pid = findProduct s pid := rfl

theorem findProduct_id_eq {s : CRMState} {pid : Nat} {p : Product}
    (h : findProduct s pid = some p) : p.id = pid := by
  have := List.find?_some h
  simpa using this

theorem mem_of_findProduct {s : CRMState} {pid : Nat} {p : Product}
    (h : findProduct s pid = some p) : p ∈ s.products :=
  List.mem_of_find?_eq_some h

theorem find?_id_of_mem {l : List Product} {p : Product}
    (h : (l.map (fun q => q.id)).Nodup) (hp : p ∈ l) :
    l.find? (fun q => decide (q.id = p.id)) = some p := by
  induction l with
  | nil => cases hp
  | cons a l ih =>
    simp only [List.map_cons, List.nodup_cons] at h
    rcases List.mem_cons.mp hp with rfl | hpl
    · simp [List.find?_cons]
    · have hne : ¬ a.id = p.id := by
        intro he
        exact h.1 (he ▸ List.mem_map_of_mem (fun q => q.id) hpl)
      have hd : (decide (a.id = p.id)) = false := decide_eq_false hne
      simp only [List.find?_cons, hd]
      exact ih h.2 hpl

theorem findProduct_of_mem {s : CRMState} {p : Product}
    (h : (s.products.map (fun q => q.id)).Nodup) (hp : p ∈ s.products) :
    findProduct s p.id = some p :=
  find?_id_of_mem h hp

theorem findProduct_isSome_iff (s : CRMState) (pid : Nat) :
    (findProduct s pid).isSome ↔ ∃ p ∈ s.products, p.id = pid := by
  unfold findProduct
  rw [List.find?_isSome]
  simp

theorem findProduct_writeStocks_not_mem {s : CRMState} {ps : List Product}
    {f : Product → Int} {pid : Nat} (h : ∀ q ∈ ps, q.id ≠ pid) :
    findProduct (writeStocks s ps f) pid = findProduct s pid := by
  induction ps generalizing s with
  | nil => rfl
  | cons q ps ih =>
    have hq := h q (by simp)
    have hstep : findProduct (setStock s q.id (f q)) pid = findProduct s pid := by
      rw [findProduct_setStock]
      cases hf : findProduct s pid with
      | none => rfl
      | some r =>
        have hr : r.id = pid := findProduct_id_eq hf
        have hne : ¬ r.id = q.id := fun he => hq (by rw [← he]; exact hr)
        simp [hne]
    calc findProduct (writeStocks (setStock s q.id (f q)) ps f) pid
        = findProduct (setStock s q.id (f q)) pid := ih (fun x hx => h x (by simp [hx]))
      _ = findProduct s pid := hstep

theorem findProduct_writeStocks_mem {s : CRMState} {ps : List Product} {f : Product → Int}
    {p : Product} (hnd : (ps.map (fun q => q.id)).Nodup) (hp : p ∈ ps) :
    findProduct (writeStocks s ps f) p.id =
      (findProduct s p.id).map (fun q => { q with stock := f p }) := by
  induction ps generalizing s with
  | nil => cases hp
  | cons q ps ih =>
    simp only [List.map_cons, List.nodup_cons] at hnd
    by_cases hpq : p = q
    · subst hpq
      have hrest : ∀ r ∈ ps, r.id ≠ p.id := fun r hr he =>
        hnd.1 (he ▸ List.mem_map_of_mem (fun x => x.id) hr)
      have h1 : findProduct (writeStocks (setStock s p.id (f p)) ps f) p.id
          = findProduct (setStock s p.id (f p)) p.id :=
        findProduct_writeStocks_not_mem hrest
      show findProduct (writeStocks (setStock s p.id (f p)) ps f) p.id = _
      rw [h1, findProduct_setStock]
      cases hf : findProduct s p.id with
      | none => rfl
      | some r =>
        have hr : r.id = p.id := findProduct_id_eq hf
        simp [hr]
    · have hpl : p ∈ ps := (List.mem_cons.mp hp).resolve_left hpq
      have hqp : q.id ≠ p.id := fun he =>
        hnd.1 (he ▸ List.mem_map_of_mem (fun x => x.id) hpl)
      show findProduct (writeStocks (setStock s q.id (f q)) ps f) p.id = _
      rw [ih hnd.2 hpl, findProduct_setStock]
      cases hf : findProduct s p.id with
      | none => rfl
      | some r =>
        have hr : r.id = p.id := findProduct_id_eq hf
        have hne : ¬ r.id = q.id := fun he => hqp (by rw [← he]; exact hr)
        simp [hne]

theorem resolve_sublist (s : CRMState) (pids : List Nat) :
    (resolveProducts s pids).Sublist s.products :=
  List.filter_sublist s.products

theorem resolve_mem_products {s : CRMState} {pids : List Nat} {p : Product}
    (hp : p ∈ resolveProducts s pids) : p ∈ s.products ∧ p.id ∈ pids := by
  unfold resolveProducts at hp
  simpa using List.mem_filter.mp hp

theorem resolve_ids_nodup {s : CRMState} (h : (s.products.map (fun p => p.id)).Nodup)
    (pids : List Nat) : ((resolveProducts s pids).map (fun p => p.id)).Nodup :=
  h.sublist ((resolve_sublist s pids).map (fun p => p.id))

theorem resolve_length_eq {s : CRMState} (h : (s.products.map (fun p => p.id)).Nodup)
    (pids : List Nat) :
    (resolveProducts s pids).length
      = (pids.dedup.filter (fun i => (findProduct s i).isSome)).length := by
  have hmem : ∀ x, x ∈ (resolveProducts s pids).map (fun p => p.id)
      ↔ x ∈ pids.dedup.filter (fun i => (findProduct s i).isSome) := by
    intro x
    constructor
    · intro hx
      rcases List.mem_map.mp hx with ⟨p, hp, rfl⟩
      rcases resolve_mem_products hp with ⟨hps, hpid⟩
      exact List.mem_filter.mpr ⟨List.mem_dedup.mpr hpid,
        (findProduct_isSome_iff s p.id).mpr ⟨p, hps, rfl⟩⟩
    · intro hx
      rcases List.mem_filter.mp hx with ⟨hxd, hxs⟩
      rcases (findProduct_isSome_iff s x).mp hxs with ⟨p, hps, hpid⟩
      refine List.mem_map.mpr ⟨p, ?_, hpid⟩
      unfold resolveProducts
      exact List.mem_filter.mpr ⟨hps, by simp [hpid, List.mem_dedup.mp hxd]⟩
  have h1 : ((resolveProducts s pids).map (fun p => p.id)).Nodup := resolve_ids_nodup h pids
  have h2 : (pids.dedup.filter (fun i => (findProduct s i).isSome)).Nodup :=
    (List.nodup_dedup pids).filter _
  have hfs : ((resolveProducts s pids).map (fun p => p.id)).toFinset
      = (pids.dedup.filter (fun i => (findProduct s i).isSome)).toFinset := by
    ext x
    simp only [List.mem_toFinset]
    exact hmem x
  have hc := congrArg Finset.card hfs
  rw [List.toFinset_card_of_nodup h1, List.toFinset_card_of_nodup h2] at hc
  simpa using hc

theorem resolve_length_lt_of_missing {s : CRMState} {pids : List Nat} {pid : Nat}
    (h : (s.products.map (fun p => p.id)).Nodup) (hmem : pid ∈ pids)
    (hmiss : findProduct s pid = none) :
    (resolveProducts s pids).length < pids.length := by
  rw [resolve_length_eq h]
  calc (pids.dedup.filter (fun i => (findProduct s i).isSome)).length
      < pids.dedup.length := by
        rw [List.length_filter_lt_length_iff_exists]
        exact ⟨pid, List.mem_dedup.mpr hmem, by simp [hmiss]⟩
    _ ≤ pids.length := (List.dedup_sublist pids).length_le

theorem resolve_length_of_all_present {s : CRMState} {pids : List Nat}
    (h : (s.products.map (fun p => p.id)).Nodup)
    (hall : ∀ i ∈ pids, (findProduct s i).isSome) :
    (resolveProducts s pids).length = pids.dedup.length := by
  rw [resolve_length_eq h]
  congr 1
  exact List.filter_eq_self.mpr (fun i hi => hall i (List.mem_dedup.mp hi))

theorem dedup_length_lt_of_dup {pids : List Nat} {pid : Nat} (h : 2 ≤ pids.count pid) :
    pids.dedup.length < pids.length := by
  have hnd : ¬ pids.Nodup := fun hn => by
    have := List.nodup_iff_count_le_one.mp hn pid
    omega
  have hsub := List.dedup_sublist pids
  rcases Nat.lt_or_ge pids.dedup.length pids.length with hlt | hge
  · exact hlt
  · exact absurd ((hsub.eq_of_length (Nat.le_antisymm hsub.length_le hge)) ▸
      List.nodup_dedup pids) hnd

theorem isSome_findOrder_updOrder (s : CRMState) (oid' : Nat) (f : Order → Order)
    (hf : ∀ o, (f o).id = o.id) (oid : Nat) :
    (findOrder (updOrder s oid' f) oid).isSome = (findOrder s oid).isSome := by
  rw [findOrder_updOrder s oid' f hf oid]
  cases findOrder s oid <;> rfl

theorem replaceStep_ok_isSome {s s' : CRMState} {oid : Nat} {pids : Option (List Nat)}
    (h : replaceStep s oid pids = Except.ok s') (oid2 : Nat) :
    (findOrder s' oid2).isSome = (findOrder s oid2).isSome := by
  unfold replaceStep at h
  dsimp only at h
  split at h
  · cases h; rfl
  · split at h
    · cases h
    · split at h
      · cases h
      · split at h
        · cases h
        · cases h
          rw [findOrder_writeStocks]
          unfold setOrderProducts
          rw [isSome_findOrder_updOrder _ _ _ (by intro o; rfl)]
          rw [findOrder_writeStocks]

theorem addStep_ok_isSome {s s' : CRMState} {oid : Nat} {pids : Option (List Nat)}
    (h : addStep s oid pids = Except.ok s') (oid2 : Nat) :
    (findOrder s' oid2).isSome = (findOrder s oid2).isSome := by
  unfold addStep at h
  dsimp only at h
  split at h
  · cases h; rfl
  · split at h
    · cases h; rfl
    · split at h
      · cases h
      · split at h
        · cases h
        · cases h
          rw [findOrder_writeStocks]
          unfold addOrderProducts
          rw [isSome_findOrder_updOrder _ _ _ (by intro o; rfl)]

theorem removeStep_ok_isSome {s s' : CRMState} {oid : Nat} {pids : Option (List Nat)}
    (h : removeStep s oid pids = Except.ok s') (oid2 : Nat) :
    (findOrder s' oid2).isSome = (findOrder s oid2).isSome := by
  unfold removeStep at h
  dsimp only at h
  split at h
  · cases h; rfl
  · split at h
    · cases h; rfl
    · split at h
      · cases h
      · cases h
        rw [findOrder_writeStocks]
        unfold removeOrderProducts
        rw [isSome_findOrder_updOrder _ _ _ (by intro o; rfl)]

theorem saveOrder_isSome (s : CRMState) (oid' : Nat) (pc : Option Nat) (t : Int) (oid : Nat) :
    (findOrder (saveOrder s oid' pc t) oid).isSome = (findOrder s oid).isSome := by
  unfold saveOrder
  exact isSome_findOrder_updOrder s oid'
    (fun o => { o with customerId := pc.getD o.customerId, total := t }) (by intro o; rfl) oid

theorem processItem_isOk (st : CRMState) (i : Nat) (p : ProductPayload) :
    (processItem st i p).isOk = payloadValid p := by
  cases p with
  | badJson => rfl
  | fields name price stock =>
    unfold processItem payloadValid
    by_cases h1 : name = none ∨ name = some "" ∨ price = none
    · simp [h1, Except.isOk, Except.toBool]
    · by_cases h2 : price.getD 0 > 0
      · by_cases h3 : stock.getD 0 ≥ 0
        · simp [h1, h2, h3, Except.isOk, Except.toBool]
        · simp [h1, h2, h3, Except.isOk, Except.toBool]
      · simp [h1, h2, Except.isOk, Except.toBool]

theorem bulkGo_counts (payloads : List ProductPayload) :
    ∀ (st : CRMState) (i : Nat),
      (bulkGo st i payloads).2.1.length = (payloads.filter payloadValid).length ∧
      (bulkGo st i payloads).2.2.length
        = (payloads.filter (fun p => ! payloadValid p)).length := by
  induction payloads with
  | nil => intro st i; exact ⟨rfl, rfl⟩
  | cons p rest ih =>
    intro st i
    cases hpi : processItem st i p with
    | ok r =>
      have hv : payloadValid p = true := by
        rw [← processItem_isOk st i p, hpi]; rfl
      have := ih r.1 (i + 1)
      simp only [bulkGo, hpi, List.filter_cons, hv, Bool.not_true]
      simpa using this
    | error e =>
      have hv : payloadValid p = false := by
        rw [← processItem_isOk st i p, hpi]; rfl
      have := ih st (i + 1)
      simp only [bulkGo, hpi, List.filter_cons, hv, Bool.not_false]
      simpa using this

theorem missingIds_eq_nil {s : CRMState} {pids : List Nat}
    (hall : ∀ i ∈ pids, (findProduct s i).isSome) : missingIds s pids = [] := by
  unfold missingIds
  refine List.filter_eq_nil_iff.mpr (fun i hi => ?_)
  have := hall i (List.mem_dedup.mp hi)
  simp only [decide_eq_true_eq]
  intro he
  rw [he] at this
  cases this

/-- C1: the claim says a failing UpdateOrder observably changes nothing. Counter-evaluation:
on `StC1`, UpdateOrder with a full replace to product 3 and a remove list that then empties
the order returns success=false, yet the committed state differs from the initial one — the
replace step's membership write and stock writes persist (the failure `return` exits the
`transaction.atomic()` block normally, which commits). -/
theorem C1_failing_updateOrder_commits_changes :
    (updateOrder StC1 1 none (some [3]) none (some [3])).1.success = false ∧
    (updateOrder StC1 1 none (some [3]) none (some [3])).1.message
      = "Cannot remove all products from order" ∧
    (updateOrder StC1 1 none (some [3]) none (some [3])).2 ≠ StC1 ∧
    orderMembership (updateOrder StC1 1 none (some [3]) none (some [3])).2 1 = [3] ∧
    (findProduct (updateOrder StC1 1 none (some [3]) none (some [3])).2 1).map
      (fun p => p.stock) = some 2 := by decide

/-- C2: the claim says invariant I2 survives every operation, in particular UpdateOrder
with addProductIds naming a product already attached. Counter-evaluation: on `StC2`
(product 1 at baseline 5, one active order holding it, stock 4 — I2 holds), adding the
already-attached product 1 succeeds, leaves the membership a single link, but decrements
stock to 3, so I2 fails afterwards. -/
theorem C2_updateOrder_add_duplicate_breaks_I2 :
    I2 (fun _ => 5) StC2 ∧
    (updateOrder StC2 1 none none (some [1]) none).1.success = true ∧
    orderMembership (updateOrder StC2 1 none none (some [1]) none).2 1 = [1] ∧
    activeLinks (updateOrder StC2 1 none none (some [1]) none).2 1 = activeLinks StC2 1 ∧
    ¬ I2 (fun _ => 5) (updateOrder StC2 1 none none (some [1]) none).2 := by decide

/-- C3: the claim says the full-replace stock check observes stock after the release, so
replacing [P] by [P] when this order holds P's last unit succeeds. Counter-evaluation: on
`StC3` the cached queryset is resolved before the release, the check sees the stale stock 0
and the call fails StockError (the rollback then restores the exact initial state). -/
theorem C3_self_replace_with_zero_stock_fails :
    (updateOrder StC3 1 none (some [1]) none none).1.success = false ∧
    (updateOrder StC3 1 none (some [1]) none none).1.message = "Products out of stock: P" ∧
    (updateOrder StC3 1 none (some [1]) none none).2 = StC3 := by decide

/-- C4: the claim says remove ids naming products outside the order are no-ops that change
no stock and never fail the call by themselves. Counter-evaluation: on `StC4` (order holds
products 1 and 2), removing the non-member product 3 succeeds but increments product 3's
stock from 7 to 8; and removing the two non-members 3 and 4 makes the emptiness guard count
them against the order's 2 members and spuriously fail ValidationError. -/
theorem C4_remove_nonmember_changes_stock :
    (updateOrder StC4 1 none none none (some [3])).1.success = true ∧
    (findProduct (updateOrder StC4 1 none none none (some [3])).2 3).map
      (fun p => p.stock) = some 8 ∧
    orderMembership (updateOrder StC4 1 none none none (some [3])).2 1 = [1, 2] ∧
    (updateOrder StC4 1 none none none (some [3, 4])).1.success = false ∧
    (updateOrder StC4 1 none none none (some [3, 4])).1.message
      = "Cannot remove all products from order" ∧
    (updateOrder StC4 1 none none none (some [3, 4])).2 = StC4 := by decide

/-- C6 counterexample: on `StC6` every id in [1, 1] resolves and the resolved product has
stock 0, yet the call does not fail StockError listing the product name — the duplicate
makes the resolution count mismatch fire first, with an empty missing-id list. -/
theorem C6_duplicate_ids_not_stock_error :
    (∀ i ∈ [1, 1], (findProduct StC6 i).isSome) ∧
    (∃ p ∈ resolveProducts StC6 [1, 1], p.stock ≤ 0) ∧
    (createOrder StC6 1 [1, 1]).1.success = false ∧
    (createOrder StC6 1 [1, 1]).1.message = "Products not found: []" ∧
    (createOrder StC6 1 [1, 1]).1.message ≠ "Products out of stock: P" := by decide

/-- C5: every successful CreateOrder returns an order whose total is the sum of the
resolved products' current prices, whose product set is exactly the resolved ids, and
each resolved product's committed stock is exactly one less than before the call. -/
theorem C5_createOrder_success_postcondition (s : CRMState) (cid : Nat) (pids : List Nat)
    (hwf : WF s) (hsucc : (createOrder s cid pids).1.success = true) :
    ∃ o, (createOrder s cid pids).1.order = some o ∧
      o.total = ((resolveProducts s pids).map (fun p => p.price)).sum ∧
      o.productIds = (resolveProducts s pids).map (fun p => p.id) ∧
      ∀ p ∈ resolveProducts s pids,
        findProduct (createOrder s cid pids).2 p.id = some { p with stock := p.stock - 1 } := by
  revert hsucc
  unfold createOrder
  dsimp only
  split
  · intro hsucc; simp [failRes] at hsucc
  · split
    · intro hsucc; simp [failRes] at hsucc
    · rename_i xopt customer heq
      split
      · intro hsucc; simp [failRes] at hsucc
      · split
        · intro hsucc; simp [failRes] at hsucc
        · intro _
          have hids : ∀ o ∈ s.orders, (fun o => decide (o.id = s.nextOrderId)) o = false := by
            intro o ho
            exact decide_eq_false (Nat.ne_of_lt (hwf.2.2.1 o ho))
          refine ⟨{ id := s.nextOrderId, customerId := customer.id,
                    productIds := (resolveProducts s pids).map (fun p => p.id),
                    total := ((resolveProducts s pids).map (fun p => p.price)).sum },
                  ?_, rfl, rfl, ?_⟩
          · show findOrder _ s.nextOrderId = _
            rw [findOrder_writeStocks]
            unfold findOrder
            show (s.orders ++ [_]).find? _ = _
            rw [find?_append_left_none _ _ _ hids]
            simp
          · intro p hp
            have hps : findProduct s p.id = some p :=
              findProduct_of_mem hwf.1 (resolve_mem_products hp).1
            rw [findProduct_writeStocks_mem (resolve_ids_nodup hwf.1 pids) hp]
            exact (by rw [hps]; rfl :
              (findProduct s p.id).map (fun q => { q with stock := p.stock - 1 })
                = some { p with stock := p.stock - 1 })

/-- C5 witness: a concrete successful CreateOrder to which the postcondition theorem
applies with every hypothesis discharged. -/
theorem C5_witness_concrete :
    WF StC5 ∧ (createOrder StC5 1 [1, 2]).1.success = true ∧
    ∃ o, (createOrder StC5 1 [1, 2]).1.order = some o ∧
      o.total = ((resolveProducts StC5 [1, 2]).map (fun p => p.price)).sum ∧
      o.productIds = (resolveProducts StC5 [1, 2]).map (fun p => p.id) ∧
      ∀ p ∈ resolveProducts StC5 [1, 2],
        findProduct (createOrder StC5 1 [1, 2]).2 p.id = some { p with stock := p.stock - 1 } :=
  ⟨by decide, by decide,
    C5_createOrder_success_postcondition StC5 1 [1, 2] (by decide) (by decide)⟩

/-- C7: deleting an existing order succeeds, increments the stock of every previously
attached product by exactly 1, and makes the order unresolvable; deleting an absent id
fails with "Order not found" and changes nothing. -/
theorem C7_deleteOrder_postcondition (s : CRMState) (oid : Nat) (hwf : WF s) :
    (∀ o, findOrder s oid = some o →
      (deleteOrder s oid).1.success = true ∧
      findOrder (deleteOrder s oid).2 oid = none ∧
      ∀ pid ∈ o.productIds, ∃ p, findProduct s pid = some p ∧
        findProduct (deleteOrder s oid).2 pid = some { p with stock := p.stock + 1 }) ∧
    (findOrder s oid = none →
      (deleteOrder s oid).1.success = false ∧
      (deleteOrder s oid).1.message = "Order not found" ∧
      (deleteOrder s oid).2 = s) := by
  constructor
  · intro o ho
    have horder : o ∈ s.orders := List.mem_of_find?_eq_some ho
    unfold deleteOrder
    rw [ho]
    refine ⟨rfl, ?_, ?_⟩
    · show ((writeStocks s (orderProducts s oid) (fun p => p.stock + 1)).orders.filter
        (fun o => decide (o.id ≠ oid))).find? (fun o => decide (o.id = oid)) = none
      refine List.find?_eq_none.mpr ?_
      intro x hx
      have hxf := (List.mem_filter.mp hx).2
      simp only [decide_eq_true_eq] at hxf ⊢
      exact hxf
    · intro pid hpid
      have hex := hwf.2.2.2.2 o horder pid hpid
      cases hfp : findProduct s pid with
      | none => rw [hfp] at hex; cases hex
      | some p =>
        refine ⟨p, rfl, ?_⟩
        have hpidp : p.id = pid := findProduct_id_eq hfp
        have hpmem : p ∈ s.products := mem_of_findProduct hfp
        have hmem2 : p ∈ orderProducts s oid := by
          unfold orderProducts
          rw [ho]
          exact List.mem_filter.mpr ⟨hpmem, by simp [hpidp, hpid]⟩
        have hnd : ((orderProducts s oid).map (fun q => q.id)).Nodup := by
          unfold orderProducts
          rw [ho]
          exact resolve_ids_nodup hwf.1 _
        show findProduct (writeStocks s (orderProducts s oid) (fun q => q.stock + 1)) pid
          = some { p with stock := p.stock + 1 }
        rw [← hpidp, findProduct_writeStocks_mem hnd hmem2,
          findProduct_of_mem hwf.1 hpmem]
        rfl
  · intro ho
    unfold deleteOrder
    rw [ho]
    exact ⟨rfl, rfl, rfl⟩

/-- C7 witness: the postcondition theorem applied to a concrete store whose order 1
holds products 1 and 2. -/
theorem C7_witness_concrete :
    (deleteOrder StC7 1).1.success = true ∧
    findOrder (deleteOrder StC7 1).2 1 = none ∧
    ∀ pid ∈ OrdC7.productIds, ∃ p, findProduct StC7 pid = some p ∧
      findProduct (deleteOrder StC7 1).2 pid = some { p with stock := p.stock + 1 } :=
  (C7_deleteOrder_postcondition StC7 1 (by decide)).1 OrdC7 (by decide)

theorem filter_not_filter_length {α : Type} (p : α → Bool) (l : List α) :
    (l.filter p).length + (l.filter (fun a => ! p a)).length = l.length := by
  induction l with
  | nil => rfl
  | cons a l ih =>
    cases ha : p a <;> simp [List.filter_cons, ha] <;> omega

/-- C8: on every BulkCreateProducts call, each payload is either created or yields one
collected error (a per-item failure never aborts the siblings: valid and invalid items
count up exactly), and on the concrete 3-payload scenario with a negative price in item 2
the result is 2 created rows, the one labeled error, success=true and the count message. -/
theorem C8_bulk_per_item_isolation :
    (∀ (s : CRMState) (payloads : List ProductPayload),
      (bulkCreateProducts s payloads).1.products.length
        = (payloads.filter payloadValid).length ∧
      (bulkCreateProducts s payloads).1.errors.length
        = (payloads.filter (fun p => ! payloadValid p)).length ∧
      (bulkCreateProducts s payloads).1.products.length
        + (bulkCreateProducts s payloads).1.errors.length = payloads.length ∧
      (bulkCreateProducts s payloads).1.success
        = decide (0 < (bulkCreateProducts s payloads).1.products.length)) ∧
    ((bulkCreateProducts StC8 payloadsC8).1.products.length = 2 ∧
     (bulkCreateProducts StC8 payloadsC8).1.errors
       = ["Product 2: Price must be greater than 0"] ∧
     (bulkCreateProducts StC8 payloadsC8).1.success = true ∧
     (bulkCreateProducts StC8 payloadsC8).1.message = "Created 2 products. 1 errors.") := by
  constructor
  · intro s payloads
    have hc := bulkGo_counts payloads s 0
    have hsum := filter_not_filter_length payloadValid payloads
    refine ⟨hc.1, hc.2, ?_, rfl⟩
    show (bulkGo s 0 payloads).2.1.length + (bulkGo s 0 payloads).2.2.length = payloads.length
    rw [hc.1, hc.2]
    exact hsum
  · exact ⟨by decide, by decide, by decide, by decide⟩

/-- C9: every CreateOrder/UpdateOrder/DeleteOrder call returns the uniform result shape
on any input and state: the embedded operations are total, a successful call carries the
entity and every failure is converted to (entity=null, success=false, message) — no error
propagates past the operation boundary. -/
theorem C9_uniform_result_shape :
    (∀ (s : CRMState) (cid : Nat) (pids : List Nat),
      ((createOrder s cid pids).1.success = true ∧
        ((createOrder s cid pids).1.order).isSome = true) ∨
      ((createOrder s cid pids).1.success = false ∧
        (createOrder s cid pids).1.order = none)) ∧
    (∀ (s : CRMState) (oid : Nat) (customerId : Option Nat)
        (productIds addProductIds removeProductIds : Option (List Nat)),
      ((updateOrder s oid customerId productIds addProductIds removeProductIds).1.success
          = true ∧
        ((updateOrder s oid customerId productIds addProductIds
          removeProductIds).1.order).isSome = true) ∨
      ((updateOrder s oid customerId productIds addProductIds removeProductIds).1.success
          = false ∧
        (updateOrder s oid customerId productIds addProductIds
          removeProductIds).1.order = none)) ∧
    (∀ (s : CRMState) (oid : Nat),
      (deleteOrder s oid).1.success = true ∨ (deleteOrder s oid).1.success = false) := by
  refine ⟨?_, ?_, ?_⟩
  · intro s cid pids
    unfold createOrder
    dsimp only
    split
    · exact Or.inr ⟨rfl, rfl⟩
    · split
      · exact Or.inr ⟨rfl, rfl⟩
      · rename_i xopt customer heq
        split
        · exact Or.inr ⟨rfl, rfl⟩
        · split
          · exact Or.inr ⟨rfl, rfl⟩
          · left
            refine ⟨rfl, ?_⟩
            show (findOrder (writeStocks _ (resolveProducts s pids) (fun p => p.stock - 1))
              s.nextOrderId).isSome = true
            rw [findOrder_writeStocks]
            unfold findOrder
            exact List.find?_isSome.mpr
              ⟨{ id := s.nextOrderId, customerId := customer.id,
                 productIds := (resolveProducts s pids).map (fun p => p.id),
                 total := ((resolveProducts s pids).map (fun p => p.price)).sum },
               by simp, by simp⟩
  · intro s oid customerId productIds addProductIds removeProductIds
    unfold updateOrder
    dsimp only
    split
    · exact Or.inr ⟨rfl, rfl⟩
    · rename_i o ho
      split
      · exact Or.inr ⟨rfl, rfl⟩
      · rename_i pendingCustomer hcust
        split
        · exact Or.inr ⟨rfl, rfl⟩
        · rename_i s1 hrep
          split
          · exact Or.inr ⟨rfl, rfl⟩
          · rename_i s2 hadd
            split
            · exact Or.inr ⟨rfl, rfl⟩
            · rename_i s3 hrem
              left
              refine ⟨rfl, ?_⟩
              show (findOrder (saveOrder s3 oid pendingCustomer
                (((orderProducts s3 oid).map (fun p => p.price)).sum)) oid).isSome = true
              rw [saveOrder_isSome, removeStep_ok_isSome hrem, addStep_ok_isSome hadd,
                replaceStep_ok_isSome hrep, ho]
              rfl
  · intro s oid
    cases hb : (deleteOrder s oid).1.success with
    | false => exact Or.inr rfl
    | true => exact Or.inl rfl

/-- C10: when every id of the list resolves but some existing id occurs more than once,
CreateOrder and UpdateOrder full-replace both fail with the message "Products not found: []"
(an empty missing-id list) and commit no state change — duplicate ids never create an order
or replace a product set. -/
theorem C10_duplicate_ids_empty_missing_list (s : CRMState) (cid oid pid : Nat)
    (pids : List Nat) (addIds removeIds : Option (List Nat))
    (hwf : WF s) (hdup : 2 ≤ pids.count pid)
    (hall : ∀ i ∈ pids, (findProduct s i).isSome)
    (c : Customer) (hc : findCustomer s cid = some c)
    (o : Order) (ho : findOrder s oid = some o) :
    ((createOrder s cid pids).1.success = false ∧
     (createOrder s cid pids).1.order = none ∧
     (createOrder s cid pids).1.message = "Products not found: []" ∧
     (createOrder s cid pids).2 = s) ∧
    ((updateOrder s oid none (some pids) addIds removeIds).1.success = false ∧
     (updateOrder s oid none (some pids) addIds removeIds).1.order = none ∧
     (updateOrder s oid none (some pids) addIds removeIds).1.message
       = "Products not found: []" ∧
     (updateOrder s oid none (some pids) addIds removeIds).2 = s) := by
  have hpmem : pid ∈ pids := List.count_pos_iff.mp (by omega)
  have hne : pids ≠ [] := List.ne_nil_of_mem hpmem
  have hlt : (resolveProducts s pids).length < pids.length := by
    rw [resolve_length_of_all_present hwf.1 hall]
    exact dedup_length_lt_of_dup hdup
  have hlen : (resolveProducts s pids).length ≠ pids.length := Nat.ne_of_lt hlt
  have hmsg : "Products not found: " ++ pyIntList (missingIds s pids)
      = "Products not found: []" := by
    rw [missingIds_eq_nil hall]
    decide
  have hcreate : createOrder s cid pids
      = (failRes ("Products not found: " ++ pyIntList (missingIds s pids)), s) := by
    unfold createOrder
    rw [if_neg hne, hc]
    dsimp only
    rw [if_pos hlen]
  have hrep : replaceStep s oid (some pids)
      = Except.error ("Products not found: " ++ pyIntList (missingIds s pids), s) := by
    unfold replaceStep
    dsimp only
    rw [if_neg hne, if_pos hlen]
  have hupd : updateOrder s oid none (some pids) addIds removeIds
      = (failRes ("Products not found: " ++ pyIntList (missingIds s pids)), s) := by
    unfold updateOrder
    rw [ho]
    dsimp only [customerStep]
    rw [hrep]
  rw [hcreate, hupd]
  exact ⟨⟨rfl, rfl, hmsg, rfl⟩, ⟨rfl, rfl, hmsg, rfl⟩⟩

/-- C10 witness: product 1 exists with stock 5, customer 1 and order 1 exist, and the
list [1, 1] repeats the existing id. -/
theorem C10_witness_concrete :
    ((createOrder StC10 1 [1, 1]).1.success = false ∧
     (createOrder StC10 1 [1, 1]).1.order = none ∧
     (createOrder StC10 1 [1, 1]).1.message = "Products not found: []" ∧
     (createOrder StC10 1 [1, 1]).2 = StC10) ∧
    ((updateOrder StC10 1 none (some [1, 1]) none none).1.success = false ∧
     (updateOrder StC10 1 none (some [1, 1]) none none).1.order = none ∧
     (updateOrder StC10 1 none (some [1, 1]) none none).1.message
       = "Products not found: []" ∧
     (updateOrder StC10 1 none (some [1, 1]) none none).2 = StC10) :=
  C10_duplicate_ids_empty_missing_list StC10 1 1 1 [1, 1] none none
    (by decide) (by decide) (by decide) CustW (by decide) OrdC10 (by decide)

/-- C6 (amended): with the customer resolving, (a) a missing productId fails the call with
the validation message listing the missing ids and no state change; (b) when the productIds
are distinct, all resolve and some resolved product has stock <= 0, the call fails
StockError listing the offending names with no state change; and (c) with product P at
stock 1, of two sequential calls for P the first succeeds leaving stock 0 and the second
fails StockError with stock still 0. (The claim as frozen also asserted (b) without the
distinctness proviso, which the duplicate-id counterexample refutes.) -/
theorem C6_createOrder_failure_behaviour (s : CRMState) (cid : Nat) (pids : List Nat)
    (hwf : WF s) (c : Customer) (hc : findCustomer s cid = some c) :
    ((∃ pid ∈ pids, findProduct s pid = none) →
      (createOrder s cid pids).1.success = false ∧
      (createOrder s cid pids).1.order = none ∧
      (createOrder s cid pids).1.message
        = "Products not found: " ++ pyIntList (missingIds s pids) ∧
      (createOrder s cid pids).2 = s) ∧
    (pids.Nodup → (∀ i ∈ pids, (findProduct s i).isSome) →
      (∃ p ∈ resolveProducts s pids, p.stock ≤ 0) →
      (createOrder s cid pids).1.success = false ∧
      (createOrder s cid pids).1.order = none ∧
      (createOrder s cid pids).1.message = "Products out of stock: "
        ++ String.intercalate ", " (outOfStockNames (resolveProducts s pids)) ∧
      (createOrder s cid pids).2 = s) ∧
    ((createOrder StC6seq 1 [1]).1.success = true ∧
      (findProduct (createOrder StC6seq 1 [1]).2 1).map (fun p => p.stock) = some 0 ∧
      (createOrder (createOrder StC6seq 1 [1]).2 1 [1]).1.success = false ∧
      (createOrder (createOrder StC6seq 1 [1]).2 1 [1]).1.message
        = "Products out of stock: P" ∧
      (findProduct (createOrder (createOrder StC6seq 1 [1]).2 1 [1]).2 1).map
        (fun p => p.stock) = some 0) := by
  refine ⟨?_, ?_, by decide⟩
  · rintro ⟨pid, hpmem, hpnone⟩
    have hne : pids ≠ [] := List.ne_nil_of_mem hpmem
    have hlen : (resolveProducts s pids).length ≠ pids.length :=
      Nat.ne_of_lt (resolve_length_lt_of_missing hwf.1 hpmem hpnone)
    have hcreate : createOrder s cid pids
        = (failRes ("Products not found: " ++ pyIntList (missingIds s pids)), s) := by
      unfold createOrder
      rw [if_neg hne, hc]
      dsimp only
      rw [if_pos hlen]
    rw [hcreate]
    exact ⟨rfl, rfl, rfl, rfl⟩
  · rintro hnodup hall ⟨p, hpres, hple⟩
    have hne : pids ≠ [] := List.ne_nil_of_mem (resolve_mem_products hpres).2
    have hlen : (resolveProducts s pids).length = pids.length := by
      rw [resolve_length_of_all_present hwf.1 hall, List.dedup_eq_self.mpr hnodup]
    have hoos : outOfStockNames (resolveProducts s pids) ≠ [] := by
      unfold outOfStockNames
      exact List.ne_nil_of_mem (List.mem_map_of_mem (fun q => q.name)
        (List.mem_filter.mpr ⟨hpres, decide_eq_true hple⟩))
    have hcreate : createOrder s cid pids
        = (failRes ("Products out of stock: "
            ++ String.intercalate ", " (outOfStockNames (resolveProducts s pids))), s) := by
      unfold createOrder
      rw [if_neg hne, hc]
      dsimp only
      rw [if_neg (not_not_intro hlen), if_pos hoos]
    rw [hcreate]
    exact ⟨rfl, rfl, rfl, rfl⟩

/-- C6 witness: on a store with customer 1, product 1 out of stock, product 2 in stock
and id 9 absent, the amended theorem applies to the missing-id call [2, 9] and to the
out-of-stock call [1]. -/
theorem C6_failure_behaviour_witness :
    ((createOrder StC6w 1 [2, 9]).1.success = false ∧
     (createOrder StC6w 1 [2, 9]).1.order = none ∧
     (createOrder StC6w 1 [2, 9]).1.message
       = "Products not found: " ++ pyIntList (missingIds StC6w [2, 9]) ∧
     (createOrder StC6w 1 [2, 9]).2 = StC6w) ∧
    ((createOrder StC6w 1 [1]).1.success = false ∧
     (createOrder StC6w 1 [1]).1.order = none ∧
     (createOrder StC6w 1 [1]).1.message = "Products out of stock: "
       ++ String.intercalate ", " (outOfStockNames (resolveProducts StC6w [1])) ∧
     (createOrder StC6w 1 [1]).2 = StC6w) :=
  ⟨(C6_createOrder_failure_behaviour StC6w 1 [2, 9] (by decide) CustW (by decide)).1
      ⟨9, by decide, by decide⟩,
   (C6_createOrder_failure_behaviour StC6w 1 [1] (by decide) CustW (by decide)).2.1
      (by decide) (by decide)
      ⟨{ id := 1, name := "P", price := 10, stock := 0 }, by decide, by decide⟩⟩

end CRM
